import Mathlib

/-!
Shallow embedding of `src/status.rs` of the RF24-rs repository: the
`Status`, `FIFOStatus` and `Interrupts` register wrappers and their
bit-manipulation accessors. Bytes are modelled as `Nat`; every operation
in the source is a right shift, bitwise and, or bitwise or of a `u8`
with a constant below `0x80`, so no `u8` wraparound can occur and no
`% 256` is needed.
-/

namespace RF24

/-- Modelled from the spec: `DataPipeIndex` (the source's `DataPipe`) is
owned by the external configuration module, whose file is not among the
sources; the spec describes it as "represented abstractly as an integer
0–5", and says this core "never validates or constructs its internal
representation, only passes integers 0–5 into it". -/
structure DataPipe where
  pipe : Nat
  deriving DecidableEq, Repr

/-- Modelled from the spec: the `u8 -> DataPipeIndex` conversion used by
`Status::data_pipe_available` (`x.into()`); per the spec the core only
passes the decoded integer through. -/
def DataPipe.fromU8 (x : Nat) : DataPipe :=
  ⟨x⟩

/-- Rust `pub struct Status(u8)` — wrapper for the status value returned from
the device. -/
structure Status where
  val : Nat
  deriving DecidableEq, Repr

/-- Rust `impl From<u8> for Status { fn from(t: u8) -> Self { Status(t) } }` -/
def Status.fromU8 (t : Nat) : Status :=
  ⟨t⟩

/-- Rust `Status::flags`: a status with all the flags turned on, `Self(0b01110000)`. -/
def Status.flags : Status :=
  ⟨0b01110000⟩

/-- Rust `Status::value`: the raw value represented by this struct. -/
def Status.value (s : Status) : Nat :=
  s.val

/-- Rust `Status::is_valid`: `(self.0 >> 7) & 1 == 0`. -/
def Status.is_valid (s : Status) : Bool :=
  (s.val >>> 7) &&& 1 == 0

/-- Rust `Status::data_ready`: `(self.0 >> 6) & 1 != 0`. -/
def Status.data_ready (s : Status) : Bool :=
  (s.val >>> 6) &&& 1 != 0

/-- Rust `Status::data_sent`: `(self.0 >> 5) & 1 != 0`. -/
def Status.data_sent (s : Status) : Bool :=
  (s.val >>> 5) &&& 1 != 0

/-- Rust `Status::reached_max_retries`: `(self.0 >> 4) & 1 != 0`. -/
def Status.reached_max_retries (s : Status) : Bool :=
  (s.val >>> 4) &&& 1 != 0

/-- Rust `Status::tx_full`: `(self.0 & 0b1) != 0`. -/
def Status.tx_full (s : Status) : Bool :=
  s.val &&& 0b1 != 0

/-- Result of a Rust function that may `panic!` (or hit `unreachable!`)
instead of returning. -/
inductive PanicOr (α : Type) where
  | panic : PanicOr α
  | ok : α → PanicOr α
  deriving DecidableEq, Repr

/-- Rust `Status::data_pipe_available`:
```
match (self.0 >> 1) & 0b111 {
    x @ 0..=5 => Some(x.into()),
    6 => panic!(),
    7 => None,
    _ => unreachable!(),
}
``` -/
def Status.data_pipe_available (s : Status) : PanicOr (Option DataPipe) :=
  let x := (s.val >>> 1) &&& 0b111
  if x ≤ 5 then PanicOr.ok (some (DataPipe.fromU8 x))
  else if x = 6 then PanicOr.panic
  else if x = 7 then PanicOr.ok none
  else PanicOr.panic

/-- Rust `pub struct FIFOStatus(u8)` — wrapper around the FIFO status. -/
structure FIFOStatus where
  val : Nat
  deriving DecidableEq, Repr

/-- Rust `impl From<u8> for FIFOStatus`. -/
def FIFOStatus.fromU8 (t : Nat) : FIFOStatus :=
  ⟨t⟩

/-- Rust `FIFOStatus::tx_full`: `(self.0 >> 5) & 1 != 0`. -/
def FIFOStatus.tx_full (s : FIFOStatus) : Bool :=
  (s.val >>> 5) &&& 1 != 0

/-- Rust `FIFOStatus::tx_empty`: `(self.0 >> 4) & 1 != 0`. -/
def FIFOStatus.tx_empty (s : FIFOStatus) : Bool :=
  (s.val >>> 4) &&& 1 != 0

/-- Rust `FIFOStatus::rx_full`: `(self.0 >> 1) & 1 != 0`. -/
def FIFOStatus.rx_full (s : FIFOStatus) : Bool :=
  (s.val >>> 1) &&& 1 != 0

/-- Rust `FIFOStatus::rx_empty`: `self.0 & 1 != 0`. -/
def FIFOStatus.rx_empty (s : FIFOStatus) : Bool :=
  s.val &&& 1 != 0

/-- Rust `pub enum InterruptKind` with its discriminant values. -/
inductive InterruptKind where
  | TransmissionFail
  | TransmissionOk
  | DataReady
  deriving DecidableEq, Repr

/-- The `as u8` cast of an `InterruptKind` discriminant. -/
def InterruptKind.toU8 : InterruptKind → Nat
  | .TransmissionFail => 0b00010000
  | .TransmissionOk => 0b00100000
  | .DataReady => 0b01000000

/-- Rust `pub struct Interrupts(u8)`. -/
structure Interrupts where
  val : Nat
  deriving DecidableEq, Repr

/-- Rust `Interrupts::new`: `Self(0)`. -/
def Interrupts.new : Interrupts :=
  ⟨0⟩

/-- Rust `Interrupts::transmission_fail`: `self.0 |= InterruptKind::TransmissionFail as u8`. -/
def Interrupts.transmission_fail (m : Interrupts) : Interrupts :=
  ⟨m.val ||| InterruptKind.TransmissionFail.toU8⟩

/-- Rust `Interrupts::transmission_ok`: `self.0 |= InterruptKind::TransmissionOk as u8`. -/
def Interrupts.transmission_ok (m : Interrupts) : Interrupts :=
  ⟨m.val ||| InterruptKind.TransmissionOk.toU8⟩

/-- Rust `Interrupts::data_ready`: `self.0 |= InterruptKind::DataReady as u8`. -/
def Interrupts.data_ready (m : Interrupts) : Interrupts :=
  ⟨m.val ||| InterruptKind.DataReady.toU8⟩

/-- Rust `Interrupts::all`: starts from `new` and ors in all three kinds. -/
def Interrupts.all : Interrupts :=
  ⟨Interrupts.new.val |||
    (InterruptKind.TransmissionFail.toU8 ||| InterruptKind.TransmissionOk.toU8 |||
      InterruptKind.DataReady.toU8)⟩

/-- Rust `Interrupts::contains`: `self.0 & irq as u8 >= 1`. -/
def Interrupts.contains (m : Interrupts) (irq : InterruptKind) : Bool :=
  m.val &&& irq.toU8 ≥ 1

/-- Rust `Interrupts::value`: the raw bitmask. -/
def Interrupts.value (m : Interrupts) : Nat :=
  m.val

/-- Rust `impl From<u8> for Interrupts`: `Self(t & Self::all().value())`. -/
def Interrupts.fromU8 (t : Nat) : Interrupts :=
  ⟨t &&& Interrupts.all.value⟩

/-- The bit position each interrupt source occupies (spec: bits 6, 5, 4
for data-ready, transmission-ok, transmission-failed respectively). -/
def InterruptKind.bit : InterruptKind → Nat
  | .TransmissionFail => 4
  | .TransmissionOk => 5
  | .DataReady => 6

/-- The set of `Interrupts` values reachable through the public
constructors: `new`, the fluent methods, `all`, and raw-byte conversion. -/
inductive Interrupts.Reachable : Interrupts → Prop where
  | new : Interrupts.Reachable Interrupts.new
  | transmission_fail (m : Interrupts) :
      Interrupts.Reachable m → Interrupts.Reachable m.transmission_fail
  | transmission_ok (m : Interrupts) :
      Interrupts.Reachable m → Interrupts.Reachable m.transmission_ok
  | data_ready (m : Interrupts) :
      Interrupts.Reachable m → Interrupts.Reachable m.data_ready
  | all : Interrupts.Reachable Interrupts.all
  | fromU8 (t : Nat) : Interrupts.Reachable (Interrupts.fromU8 t)

/-- A single-bit test written as the source writes it agrees with `Nat.testBit`. -/
theorem shift_and_one_eq_testBit (b i : Nat) : ((b >>> i) &&& 1 != 0) = b.testBit i := by
  simp [Nat.testBit, Nat.and_comm]

/-- Oring two values whose bits lie inside a mask stays inside the mask. -/
theorem and_mask_or (x y z : Nat) (hx : x &&& z = x) (hy : y &&& z = y) :
    (x ||| y) &&& z = x ||| y := by
  apply Nat.eq_of_testBit_eq
  intro i
  have hx' := congrArg (fun n => n.testBit i) hx
  have hy' := congrArg (fun n => n.testBit i) hy
  simp only [Nat.testBit_land, Nat.testBit_lor] at hx' hy' ⊢
  cases hz : z.testBit i
  · simp [hz] at hx' hy'
    simp [hx', hy']
  · simp [hz]

/-- Masking twice is the same as masking once. -/
theorem and_and_self (t z : Nat) : (t &&& z) &&& z = t &&& z := by
  apply Nat.eq_of_testBit_eq
  intro i
  simp [Nat.testBit_land, Bool.and_assoc]

/-- Comparing a single masked-out bit against 1 agrees with `Nat.testBit`. -/
theorem decide_and_two_pow_ge_one (x k : Nat) :
    (decide (x &&& 2 ^ k ≥ 1)) = x.testBit k := by
  rw [Bool.eq_iff_iff, decide_eq_true_iff, Nat.and_two_pow]
  cases h : x.testBit k
  · simp [h]
  · simp only [h, Bool.toNat_true, one_mul]
    simp [Nat.one_le_two_pow]

end RF24

open RF24

/-- C3: for every byte `b`, `Status::from(b)` stores `b` unchanged, so
reading back `value()` yields exactly `b`; the constructor is total. -/
theorem status_from_value_roundtrip (b : Nat) : (Status.fromU8 b).value = b :=
  rfl

/-- C1: for every status byte `b`, with `p = (b >> 1) & 0b111` the pipe field
at bits 3..1: if `p ≤ 5` then `data_pipe_available` returns a populated pipe
index equal to `p`, and if `p = 7` it returns the empty option. -/
theorem data_pipe_available_decodes (b : Nat) :
    ((b >>> 1) &&& 0b111 ≤ 5 →
      (Status.fromU8 b).data_pipe_available =
        PanicOr.ok (some (DataPipe.fromU8 ((b >>> 1) &&& 0b111))))
  ∧ ((b >>> 1) &&& 0b111 = 7 →
      (Status.fromU8 b).data_pipe_available = PanicOr.ok none) := by
  constructor
  · intro h
    simp [Status.data_pipe_available, Status.fromU8, h]
  · intro h
    simp [Status.data_pipe_available, Status.fromU8, h]

/-- C1 witness: on the byte `0b0110` (pipe field 3) the decoder returns pipe
index 3, and on the byte `0b1110` (pipe field 7) it returns the empty option. -/
theorem data_pipe_available_decodes_witness :
    (Status.fromU8 0b0110).data_pipe_available = PanicOr.ok (some (DataPipe.fromU8 3))
  ∧ (Status.fromU8 0b1110).data_pipe_available = PanicOr.ok none :=
  ⟨(data_pipe_available_decodes 0b0110).1 (by decide),
    (data_pipe_available_decodes 0b1110).2 (by decide)⟩

/-- C2: for every status byte `b` whose pipe field at bits 3..1 equals 6 (the
reserved encoding), `data_pipe_available` hits the fatal `panic!` path: it
never returns a value, empty or populated, and never yields a recoverable
result. -/
theorem data_pipe_available_reserved_panics (b : Nat)
    (h : (b >>> 1) &&& 0b111 = 6) :
    (Status.fromU8 b).data_pipe_available = PanicOr.panic := by
  simp [Status.data_pipe_available, Status.fromU8, h]

/-- C2 witness: the byte `0b1100` has pipe field 6 and the decoder panics. -/
theorem data_pipe_available_reserved_panics_witness :
    (Status.fromU8 0b1100).data_pipe_available = PanicOr.panic :=
  data_pipe_available_reserved_panics 0b1100 (by decide)

/-- C4: every reachable `Interrupts` value — produced by `new`, any chain of
the fluent methods, `all`, or raw-byte construction — has a stored bitmask
whose set bits are a subset of `0b01110000`; moreover
`Interrupts::from(0xFF).value() == Interrupts::all().value()` and
`Interrupts::all().value() == 0b01110000`. -/
theorem interrupts_reachable_masked :
    (∀ m : Interrupts, Interrupts.Reachable m → m.value &&& 0b01110000 = m.value)
  ∧ (Interrupts.fromU8 0xFF).value = Interrupts.all.value
  ∧ Interrupts.all.value = 0b01110000 := by
  refine ⟨?_, by decide, by decide⟩
  intro m hm
  induction hm with
  | new => decide
  | transmission_fail m _ ih => exact and_mask_or _ _ _ ih (by decide)
  | transmission_ok m _ ih => exact and_mask_or _ _ _ ih (by decide)
  | data_ready m _ ih => exact and_mask_or _ _ _ ih (by decide)
  | all => decide
  | fromU8 t =>
      show (t &&& Interrupts.all.value) &&& 0b01110000 = t &&& Interrupts.all.value
      rw [show Interrupts.all.value = 0b01110000 from by decide]
      exact and_and_self t 0b01110000

/-- C4 witness: the raw-byte constructor applied to `0x37` yields a reachable
value whose bits lie inside `0b01110000`. -/
theorem interrupts_reachable_masked_witness :
    (Interrupts.fromU8 0x37).value &&& 0b01110000 = (Interrupts.fromU8 0x37).value :=
  interrupts_reachable_masked.1 (Interrupts.fromU8 0x37) (Interrupts.Reachable.fromU8 0x37)

/-- C5 counterexample: the claim is false at its own input `112 = 0b01110000`:
the pipe field at bits 3..1 of `0b01110000` is `0b000`, not `0b111`, so
`data_pipe_available` does not return the empty option there. -/
theorem status112_available_pipe_not_none :
    ¬ ((Status.fromU8 112).is_valid = true ∧ (Status.fromU8 112).data_ready = true ∧
       (Status.fromU8 112).data_sent = true ∧ (Status.fromU8 112).reached_max_retries = true ∧
       (Status.fromU8 112).data_pipe_available = PanicOr.ok none ∧
       (Status.fromU8 112).tx_full = false) := by
  decide

/-- C5 amended: for the status byte `112 = 0b01110000`: `is_valid`,
`data_ready`, `data_sent` and `reached_max_retries` are all true,
`data_pipe_available` returns the populated pipe index 0 (the pipe field at
bits 3..1 is `0b000`), and `tx_full` is false. -/
theorem status112_decodes :
    (Status.fromU8 112).is_valid = true ∧ (Status.fromU8 112).data_ready = true ∧
    (Status.fromU8 112).data_sent = true ∧ (Status.fromU8 112).reached_max_retries = true ∧
    (Status.fromU8 112).data_pipe_available = PanicOr.ok (some (DataPipe.fromU8 0)) ∧
    (Status.fromU8 112).tx_full = false := by
  decide

/-- C6 counterexample: the claim is false at its own input `0b00110011`: bit 5
of that byte is 1, so `tx_full` returns true, not false. -/
theorem fifo51_tx_full_not_false :
    ¬ ((FIFOStatus.fromU8 0b00110011).tx_full = false) := by
  decide

/-- C6 amended: the four `FIFOStatus` accessors test exactly bits 5, 4, 1, 0
for `tx_full`, `tx_empty`, `rx_full`, `rx_empty` respectively, each total; and
for `FIFOStatus::from(0b00110011)`: `tx_full` is true (bit 5 is set),
`tx_empty` is true, `rx_full` is true, `rx_empty` is true. -/
theorem fifo_accessors_bits (b : Nat) :
    ((FIFOStatus.fromU8 b).tx_full = b.testBit 5)
  ∧ ((FIFOStatus.fromU8 b).tx_empty = b.testBit 4)
  ∧ ((FIFOStatus.fromU8 b).rx_full = b.testBit 1)
  ∧ ((FIFOStatus.fromU8 b).rx_empty = b.testBit 0)
  ∧ ((FIFOStatus.fromU8 0b00110011).tx_full = true
      ∧ (FIFOStatus.fromU8 0b00110011).tx_empty = true
      ∧ (FIFOStatus.fromU8 0b00110011).rx_full = true
      ∧ (FIFOStatus.fromU8 0b00110011).rx_empty = true) :=
  ⟨shift_and_one_eq_testBit b 5, shift_and_one_eq_testBit b 4,
    shift_and_one_eq_testBit b 1, shift_and_one_eq_testBit b 0, by decide⟩

/-- C7: for every status byte `b`, including every `b` with bit 7 set:
`is_valid` is true iff bit 7 of `b` is clear, `data_ready` equals bit 6,
`data_sent` equals bit 5, `reached_max_retries` equals bit 4, and `tx_full`
equals bit 0 — the boolean accessors never gate their result on validity. -/
theorem status_accessors_ignore_validity (b : Nat) :
    ((Status.fromU8 b).is_valid = !b.testBit 7)
  ∧ ((Status.fromU8 b).data_ready = b.testBit 6)
  ∧ ((Status.fromU8 b).data_sent = b.testBit 5)
  ∧ ((Status.fromU8 b).reached_max_retries = b.testBit 4)
  ∧ ((Status.fromU8 b).tx_full = b.testBit 0) := by
  refine ⟨?_, shift_and_one_eq_testBit b 6, shift_and_one_eq_testBit b 5,
    shift_and_one_eq_testBit b 4, shift_and_one_eq_testBit b 0⟩
  rw [← shift_and_one_eq_testBit b 7]
  simp [Status.is_valid, Status.fromU8, bne]

/-- C8: for every `Interrupts` value `m`, each fluent method
(`transmission_fail`, `transmission_ok`, `data_ready`) sets exactly that
source's bit (4, 5, 6 respectively), leaves every other bit of `m` unchanged,
and is idempotent. -/
theorem interrupts_fluent_set_bit (m : Interrupts) :
    (m.transmission_fail.value.testBit 4 = true
      ∧ (∀ i, i ≠ 4 → m.transmission_fail.value.testBit i = m.value.testBit i)
      ∧ m.transmission_fail.transmission_fail = m.transmission_fail)
  ∧ (m.transmission_ok.value.testBit 5 = true
      ∧ (∀ i, i ≠ 5 → m.transmission_ok.value.testBit i = m.value.testBit i)
      ∧ m.transmission_ok.transmission_ok = m.transmission_ok)
  ∧ (m.data_ready.value.testBit 6 = true
      ∧ (∀ i, i ≠ 6 → m.data_ready.value.testBit i = m.value.testBit i)
      ∧ m.data_ready.data_ready = m.data_ready) := by
  refine ⟨⟨?_, ?_, ?_⟩, ⟨?_, ?_, ?_⟩, ⟨?_, ?_, ?_⟩⟩
  · simp [Interrupts.transmission_fail, Interrupts.value, InterruptKind.toU8,
      Nat.testBit_lor, show Nat.testBit 16 4 = true from by decide]
  · intro i hi
    have hb : Nat.testBit 16 i = false := by
      rw [show (16 : Nat) = 2 ^ 4 from by norm_num,
        Nat.testBit_two_pow_of_ne (by omega)]
    simp [Interrupts.transmission_fail, Interrupts.value, InterruptKind.toU8,
      Nat.testBit_lor, hb]
  · simp only [Interrupts.transmission_fail, InterruptKind.toU8]
    rw [Nat.or_assoc, Nat.or_self]
  · simp [Interrupts.transmission_ok, Interrupts.value, InterruptKind.toU8,
      Nat.testBit_lor, show Nat.testBit 32 5 = true from by decide]
  · intro i hi
    have hb : Nat.testBit 32 i = false := by
      rw [show (32 : Nat) = 2 ^ 5 from by norm_num,
        Nat.testBit_two_pow_of_ne (by omega)]
    simp [Interrupts.transmission_ok, Interrupts.value, InterruptKind.toU8,
      Nat.testBit_lor, hb]
  · simp only [Interrupts.transmission_ok, InterruptKind.toU8]
    rw [Nat.or_assoc, Nat.or_self]
  · simp [Interrupts.data_ready, Interrupts.value, InterruptKind.toU8,
      Nat.testBit_lor, show Nat.testBit 64 6 = true from by decide]
  · intro i hi
    have hb : Nat.testBit 64 i = false := by
      rw [show (64 : Nat) = 2 ^ 6 from by norm_num,
        Nat.testBit_two_pow_of_ne (by omega)]
    simp [Interrupts.data_ready, Interrupts.value, InterruptKind.toU8,
      Nat.testBit_lor, hb]
  · simp only [Interrupts.data_ready, InterruptKind.toU8]
    rw [Nat.or_assoc, Nat.or_self]

/-- C8 witness: on the empty mask, `data_ready` sets bit 6, leaves bit 0
unchanged, and is idempotent. -/
theorem interrupts_fluent_set_bit_witness :
    (0 : Nat) ≠ 6
  ∧ Interrupts.new.data_ready.value.testBit 6 = true
  ∧ Interrupts.new.data_ready.value.testBit 0 = Interrupts.new.value.testBit 0
  ∧ Interrupts.new.data_ready.data_ready = Interrupts.new.data_ready :=
  ⟨by decide, (interrupts_fluent_set_bit Interrupts.new).2.2.1,
    (interrupts_fluent_set_bit Interrupts.new).2.2.2.1 0 (by decide),
    (interrupts_fluent_set_bit Interrupts.new).2.2.2.2⟩

/-- C9: for every `Interrupts` value `m` and every interrupt source `k`,
`contains k` returns true iff `k`'s bit is set in `m`'s stored value; the
empty mask contains no source, and after `data_ready` on the empty mask,
`DataReady` is contained while the other two sources are not. -/
theorem interrupts_contains_iff :
    (∀ (m : Interrupts) (k : InterruptKind), m.contains k = m.value.testBit k.bit)
  ∧ (∀ k : InterruptKind, Interrupts.new.contains k = false)
  ∧ Interrupts.new.data_ready.contains InterruptKind.DataReady = true
  ∧ Interrupts.new.data_ready.contains InterruptKind.TransmissionFail = false
  ∧ Interrupts.new.data_ready.contains InterruptKind.TransmissionOk = false := by
  refine ⟨?_, fun k => by cases k <;> decide, by decide, by decide, by decide⟩
  intro m k
  cases k
  · show decide (m.val &&& 16 ≥ 1) = m.val.testBit 4
    rw [show (16 : Nat) = 2 ^ 4 from by norm_num]
    exact decide_and_two_pow_ge_one m.val 4
  · show decide (m.val &&& 32 ≥ 1) = m.val.testBit 5
    rw [show (32 : Nat) = 2 ^ 5 from by norm_num]
    exact decide_and_two_pow_ge_one m.val 5
  · show decide (m.val &&& 64 ≥ 1) = m.val.testBit 6
    rw [show (64 : Nat) = 2 ^ 6 from by norm_num]
    exact decide_and_two_pow_ge_one m.val 6

/-- C10: `Status::flags()` builds the status with raw value `0b01110000`; on
it `is_valid`, `data_ready`, `data_sent` and `reached_max_retries` are all
true, `tx_full` is false, and `data_pipe_available` returns the populated
pipe index 0 (the pipe field at bits 3..1 of `0b01110000` is 0), not the
empty option. -/
theorem status_flags_decodes :
    Status.flags.value = 0b01110000
  ∧ Status.flags.is_valid = true
  ∧ Status.flags.data_ready = true
  ∧ Status.flags.data_sent = true
  ∧ Status.flags.reached_max_retries = true
  ∧ Status.flags.tx_full = false
  ∧ Status.flags.data_pipe_available = PanicOr.ok (some (DataPipe.fromU8 0)) := by
  decide
